import Mathlib

/-!
# Verification of the video-frame / video-buffer core of this repository

The repository ships the unit tests (`tst_qvideoframe.cpp`,
`tst_qvideobuffers.cpp`) of a video-frame value type (`QVideoFrame`) and its
pluggable backing buffers (`QMemoryVideoBuffer`, `QImageVideoBuffer`,
`QAbstractVideoBuffer`).  The implementation of those classes is not part of
this excerpt, so the definitions below are modelled from the specification's
description of their contract, adjusted wherever the repository's own tests
pin the behaviour (the tests are authoritative where they conflict with the
spec's prose).

Machine pointers are modelled as natural-number identities: two equal
numbers model the same address, a fresh allocation is modelled by a distinct
number (`p + 1` is used as the canonical fresh address after a
copy-on-write detach).
-/

namespace QtMultimediaModel

/-- `QVideoFrame::MapMode` — access intent for mapped pixel memory. -/
inductive MapMode where
  | NotMapped
  | ReadOnly
  | WriteOnly
  | ReadWrite
deriving DecidableEq, Repr

/-- Whether a map mode demands write access (the `mode & WriteOnly` test of
the C++ sources). -/
def MapMode.includesWrite : MapMode → Bool
  | .WriteOnly => true
  | .ReadWrite => true
  | _ => false

/-- Whether a map mode grants read access. -/
def MapMode.includesRead : MapMode → Bool
  | .ReadOnly => true
  | .ReadWrite => true
  | _ => false

/-- `QAbstractVideoBuffer::MapData` — result of mapping a buffer: a plane
count and per-plane data pointers, strides and byte sizes.  A failed map is
the zero-plane value. -/
structure MapData where
  nPlanes : Nat
  data : List Nat
  bytesPerLine : List Nat
  size : List Nat
deriving DecidableEq, Repr

/-- The empty (failure) `MapData`, `{}` in the C++ sources. -/
def MapData.empty : MapData := ⟨0, [], [], []⟩

/-- Modelled from the spec: the missing `QMemoryVideoBuffer` class (only its
tests are in the repository).  A reference-counted byte array backs one
plane; `dataPtr` is the identity of the backing store, `externallyShared`
records whether other `QByteArray` handles alive elsewhere share that store
(which makes a write-mode map detach, i.e. copy to a fresh address).  The
same map/unmap state machine is exercised by the tests for
`QImageVideoBuffer`. -/
structure QMemoryVideoBuffer where
  dataPtr : Nat
  dataLen : Nat
  bytesPerLine : Nat
  m_mapMode : MapMode
  externallyShared : Bool
deriving DecidableEq, Repr

namespace QMemoryVideoBuffer

/-- Modelled from the spec: the missing `QMemoryVideoBuffer::map`.  Per the
buffer tests (`map_changesMappedStateAndReturnsProperMappings...`,
`mapWithNotMappedMode_doesNothing`, `map_doesNothing_whenBufferIsMapped`,
`mapMemoryBufferWith...`): a map succeeds only from the `NotMapped` state,
with a non-`NotMapped` mode, on a non-empty store; a write-mode map of a
shared store detaches it to a fresh address; every other request returns the
empty `MapData` and leaves the buffer untouched. -/
def map (b : QMemoryVideoBuffer) (mode : MapMode) : MapData × QMemoryVideoBuffer :=
  if b.m_mapMode = .NotMapped ∧ b.dataLen ≠ 0 ∧ mode ≠ .NotMapped then
    let ptr := if mode.includesWrite ∧ b.externallyShared then b.dataPtr + 1 else b.dataPtr
    (⟨1, [ptr], [b.bytesPerLine], [b.dataLen]⟩,
     { b with m_mapMode := mode, dataPtr := ptr,
              externallyShared := if mode.includesWrite then false else b.externallyShared })
  else
    (MapData.empty, b)

/-- Modelled from the spec: the missing `QMemoryVideoBuffer::unmap` —
returns the buffer to the `NotMapped` state; a no-op when unmapped. -/
def unmap (b : QMemoryVideoBuffer) : QMemoryVideoBuffer :=
  { b with m_mapMode := .NotMapped }

/-- A memory buffer exposes a single plane. -/
def planeCount (_ : QMemoryVideoBuffer) : Nat := 1

/-- Modelled from the spec: the missing
`QMemoryVideoBuffer::underlyingByteArray(plane)` — exposes the raw backing
store (its address and length) for an in-range plane without requiring the
buffer to be mapped; `none` models the null `QByteArray` returned for an
out-of-range plane index. -/
def underlyingByteArray (b : QMemoryVideoBuffer) (plane : Int) : Option (Nat × Nat) :=
  if plane = 0 then some (b.dataPtr, b.dataLen) else none

end QMemoryVideoBuffer

/-- `QVideoFrameFormat::PixelFormat` — the pixel-format tags exercised by
the repository's tests. -/
inductive PixelFormat where
  | Format_Invalid
  | Format_ARGB8888
  | Format_ARGB8888_Premultiplied
  | Format_XRGB8888
  | Format_BGRA8888
  | Format_BGRA8888_Premultiplied
  | Format_BGRX8888
  | Format_ABGR8888
  | Format_XBGR8888
  | Format_RGBA8888
  | Format_RGBX8888
  | Format_AYUV
  | Format_AYUV_Premultiplied
  | Format_YUV420P
  | Format_YUV422P
  | Format_YV12
  | Format_UYVY
  | Format_YUYV
  | Format_NV12
  | Format_NV21
  | Format_IMC1
  | Format_IMC2
  | Format_IMC3
  | Format_IMC4
  | Format_Y8
  | Format_Y16
  | Format_Jpeg
deriving DecidableEq, Repr

/-- `QImage::Format` — the image-format tags exercised by the repository's
tests. -/
inductive QImageFormat where
  | Format_Invalid
  | Format_Mono
  | Format_MonoLSB
  | Format_Indexed8
  | Format_RGB32
  | Format_ARGB32
  | Format_ARGB32_Premultiplied
  | Format_RGB16
  | Format_ARGB8565_Premultiplied
  | Format_RGB666
  | Format_ARGB6666_Premultiplied
  | Format_RGB555
  | Format_ARGB8555_Premultiplied
  | Format_RGB888
  | Format_RGB444
  | Format_ARGB4444_Premultiplied
  | Format_RGBX8888
  | Format_RGBA8888
  | Format_RGBA8888_Premultiplied
  | Format_BGR30
  | Format_A2BGR30_Premultiplied
  | Format_RGB30
  | Format_A2RGB30_Premultiplied
  | Format_Alpha8
  | Format_Grayscale8
  | Format_Grayscale16
  | Format_RGBX64
  | Format_RGBA64
  | Format_RGBA64_Premultiplied
  | Format_BGR888
  | Format_RGBX16FPx4
  | Format_RGBA16FPx4
  | Format_RGBA16FPx4_Premultiplied
  | Format_RGBX32FPx4
  | Format_RGBA32FPx4
  | Format_RGBA32FPx4_Premultiplied
deriving DecidableEq, Repr

/-- Modelled from the spec: the missing
`QVideoFrameFormat::pixelFormatFromImageFormat` table (little-endian
branch), as pinned by `tst_QVideoFrame::formatConversion` and by
`constructor_createsFrameWithCorrectFormat...` — image formats with a direct
packed-RGB/grayscale equivalent map to it, `Format_RGBA8888_Premultiplied`
maps to the pixel format `Format_RGBX8888` (the documented workaround), and
every other image format maps to `Format_Invalid`. -/
def pixelFormatFromImageFormat : QImageFormat → PixelFormat
  | .Format_RGB32 => .Format_BGRX8888
  | .Format_ARGB32 => .Format_BGRA8888
  | .Format_ARGB32_Premultiplied => .Format_BGRA8888_Premultiplied
  | .Format_RGBA8888 => .Format_RGBA8888
  | .Format_RGBA8888_Premultiplied => .Format_RGBX8888
  | .Format_RGBX8888 => .Format_RGBX8888
  | .Format_Grayscale8 => .Format_Y8
  | .Format_Grayscale16 => .Format_Y16
  | _ => .Format_Invalid

/-- Modelled from the spec: the missing
`QVideoFrameFormat::imageFormatFromPixelFormat` table (little-endian
branch), as pinned by `tst_QVideoFrame::formatConversion` — the inverse
direction of the mapping, with all YUV/packed-exotic/compressed pixel
formats mapping to `QImage::Format_Invalid`. -/
def imageFormatFromPixelFormat : PixelFormat → QImageFormat
  | .Format_BGRX8888 => .Format_RGB32
  | .Format_BGRA8888 => .Format_ARGB32
  | .Format_BGRA8888_Premultiplied => .Format_ARGB32_Premultiplied
  | .Format_RGBA8888 => .Format_RGBA8888
  | .Format_RGBX8888 => .Format_RGBX8888
  | .Format_Y8 => .Format_Grayscale8
  | .Format_Y16 => .Format_Grayscale16
  | _ => .Format_Invalid

/-- Per-plane layout descriptor of a pixel format: the stride of the plane
before alignment is `width * byteFactor / widthDiv` bytes, and the plane
holds `height / heightDiv` rows. -/
structure PlaneDesc where
  byteFactor : Nat
  widthDiv : Nat
  heightDiv : Nat
deriving DecidableEq, Repr

/-- Modelled from the spec: the missing per-format texture/plane description
table used when a frame is allocated from a format alone, as pinned by
`tst_QVideoFrame::create_data` and `tst_QVideoFrame::mapPlanes_data`
(strides and offsets of the allocated planes).  An unsupported format has no
planes. -/
def planeDescs : PixelFormat → List PlaneDesc
  | .Format_ARGB8888 => [⟨4, 1, 1⟩]
  | .Format_ARGB8888_Premultiplied => [⟨4, 1, 1⟩]
  | .Format_XRGB8888 => [⟨4, 1, 1⟩]
  | .Format_BGRA8888 => [⟨4, 1, 1⟩]
  | .Format_BGRA8888_Premultiplied => [⟨4, 1, 1⟩]
  | .Format_BGRX8888 => [⟨4, 1, 1⟩]
  | .Format_ABGR8888 => [⟨4, 1, 1⟩]
  | .Format_XBGR8888 => [⟨4, 1, 1⟩]
  | .Format_RGBA8888 => [⟨4, 1, 1⟩]
  | .Format_RGBX8888 => [⟨4, 1, 1⟩]
  | .Format_AYUV => [⟨4, 1, 1⟩]
  | .Format_AYUV_Premultiplied => [⟨4, 1, 1⟩]
  | .Format_YUV420P => [⟨1, 1, 1⟩, ⟨1, 2, 2⟩, ⟨1, 2, 2⟩]
  | .Format_YUV422P => [⟨1, 1, 1⟩, ⟨1, 2, 1⟩, ⟨1, 2, 1⟩]
  | .Format_YV12 => [⟨1, 1, 1⟩, ⟨1, 2, 2⟩, ⟨1, 2, 2⟩]
  | .Format_UYVY => [⟨2, 1, 1⟩]
  | .Format_YUYV => [⟨2, 1, 1⟩]
  | .Format_NV12 => [⟨1, 1, 1⟩, ⟨1, 1, 2⟩]
  | .Format_NV21 => [⟨1, 1, 1⟩, ⟨1, 1, 2⟩]
  | .Format_IMC1 => [⟨1, 1, 1⟩, ⟨1, 1, 2⟩, ⟨1, 1, 2⟩]
  | .Format_IMC2 => [⟨1, 1, 1⟩, ⟨1, 1, 2⟩]
  | .Format_IMC3 => [⟨1, 1, 1⟩, ⟨1, 1, 2⟩, ⟨1, 1, 2⟩]
  | .Format_IMC4 => [⟨1, 1, 1⟩, ⟨1, 1, 2⟩]
  | .Format_Y8 => [⟨1, 1, 1⟩]
  | .Format_Y16 => [⟨2, 1, 1⟩]
  | .Format_Invalid => []
  | .Format_Jpeg => []

/-- Upward alignment of a byte count to a multiple of 16, the alignment the
allocated plane strides observe in the tests (`(n + 15) & ~15`). -/
def align16 (n : Nat) : Nat := (n + 15) / 16 * 16

/-- Aligned stride, in bytes, of one plane of a frame `w` pixels wide. -/
def planeStride (w : Int) (p : PlaneDesc) : Nat :=
  align16 (w.toNat * p.byteFactor / p.widthDiv)

/-- Number of rows of one plane of a frame `h` pixels high. -/
def planeHeight (h : Int) (p : PlaneDesc) : Nat :=
  h.toNat / p.heightDiv

/-- Aligned strides of all planes of a format at a given width. -/
def planeStrides (pf : PixelFormat) (w : Int) : List Nat :=
  (planeDescs pf).map (planeStride w)

/-- Byte sizes (stride × rows) of all planes of a format at a given size. -/
def planeSizes (pf : PixelFormat) (w h : Int) : List Nat :=
  (planeDescs pf).map (fun p => planeStride w p * planeHeight h p)

/-- Byte offsets, from the start of plane 0, of planes 1, 2, … — each plane
starts where the previous one ends. -/
def planeOffsets (pf : PixelFormat) (w h : Int) : List Nat :=
  let sizes := planeSizes pf w h
  ((List.range sizes.length).drop 1).map (fun i => (sizes.take i).sum)

/-- Total number of bytes of the in-memory store allocated for a frame of
the given format and size; `0` when a dimension is non-positive or the
format is unsupported, in which case no buffer is allocated. -/
def bytesForSize (pf : PixelFormat) (w h : Int) : Nat :=
  if 0 < w ∧ 0 < h then (planeSizes pf w h).sum else 0

/-- `QVideoFrameFormat` — the frame descriptor: a size and a pixel format
(the orientation metadata is irrelevant to the claims below). -/
structure VideoFrameFormat where
  width : Int
  height : Int
  pixelFormat : PixelFormat
deriving DecidableEq, Repr

/-- The default-constructed `QVideoFrameFormat`: invalid size `(-1, -1)` and
`Format_Invalid`. -/
def VideoFrameFormat.invalid : VideoFrameFormat := ⟨-1, -1, .Format_Invalid⟩

/-- Modelled from the spec: the missing `QVideoFrame` value type (only its
tests are in the repository).  It holds a nullable backing buffer, the frame
format, the start/end timestamps (microseconds, `-1` meaning unset), and the
frame-level map bookkeeping: `mappedCount` is the nesting reference of
`ReadOnly` mappings and `mapData` the plane layout of the live mapping. -/
structure QVideoFrame where
  buffer : Option QMemoryVideoBuffer
  format : VideoFrameFormat
  startTime : Int
  endTime : Int
  mappedCount : Nat
  mapData : MapData
deriving DecidableEq, Repr

namespace QVideoFrame

/-- The default-constructed (null) frame. -/
def defaultFrame : QVideoFrame :=
  ⟨none, VideoFrameFormat.invalid, -1, -1, 0, MapData.empty⟩

/-- Modelled from the spec: construction from `(buffer, format)` — stores
the (possibly null) buffer reference and the format; timestamps start
unset. -/
def fromBuffer (b : Option QMemoryVideoBuffer) (fmt : VideoFrameFormat) : QVideoFrame :=
  ⟨b, fmt, -1, -1, 0, MapData.empty⟩

/-- Modelled from the spec: construction from a format alone — eagerly
allocates an in-memory buffer holding the pixel data implied by
`(size, pixelFormat)`; when the implied byte count is zero (non-positive
dimension or unsupported format) no buffer is allocated and the frame is
invalid.  The fresh allocation is modelled at address `0`. -/
def fromFormat (fmt : VideoFrameFormat) : QVideoFrame :=
  let bytes := bytesForSize fmt.pixelFormat fmt.width fmt.height
  if 0 < bytes then
    ⟨some ⟨0, bytes, (planeStrides fmt.pixelFormat fmt.width).headD 0, .NotMapped, false⟩,
     fmt, -1, -1, 0, MapData.empty⟩
  else
    ⟨none, fmt, -1, -1, 0, MapData.empty⟩

/-- `QVideoFrame::width`. -/
def width (f : QVideoFrame) : Int := f.format.width

/-- `QVideoFrame::height`. -/
def height (f : QVideoFrame) : Int := f.format.height

/-- `QVideoFrame::pixelFormat`. -/
def pixelFormat (f : QVideoFrame) : PixelFormat := f.format.pixelFormat

/-- `QVideoFrame::isValid` — a frame is valid iff it holds a buffer and its
format size has both dimensions positive. -/
def isValid (f : QVideoFrame) : Bool :=
  f.buffer.isSome && decide (0 < f.format.width) && decide (0 < f.format.height)

/-- `QVideoFrame::mapMode` — the buffer's mode, `NotMapped` for a null
frame. -/
def mapMode (f : QVideoFrame) : MapMode :=
  match f.buffer with
  | none => .NotMapped
  | some b => b.m_mapMode

/-- `QVideoFrame::isMapped`. -/
def isMapped (f : QVideoFrame) : Bool := decide (0 < f.mappedCount)

/-- `QVideoFrame::isReadable` — mapped in a mode that includes reading. -/
def isReadable (f : QVideoFrame) : Bool := f.isMapped && f.mapMode.includesRead

/-- `QVideoFrame::isWritable` — mapped in a mode that includes writing. -/
def isWritable (f : QVideoFrame) : Bool := f.isMapped && f.mapMode.includesWrite

/-- `QVideoFrame::bits(plane)` — `none` when unmapped or out of range. -/
def bits (f : QVideoFrame) (plane : Nat) : Option Nat :=
  if f.mappedCount = 0 then none else f.mapData.data.get? plane

/-- `QVideoFrame::bytesPerLine(plane)` — `0` when unmapped or out of
range. -/
def bytesPerLine (f : QVideoFrame) (plane : Nat) : Nat :=
  if f.mappedCount = 0 then 0 else (f.mapData.bytesPerLine.get? plane).getD 0

/-- `QVideoFrame::mappedBytes(plane)` — `0` when unmapped or out of
range. -/
def mappedBytes (f : QVideoFrame) (plane : Nat) : Nat :=
  if f.mappedCount = 0 then 0 else (f.mapData.size.get? plane).getD 0

/-- `QVideoFrame::planeCount` — determined by the pixel format. -/
def planeCount (f : QVideoFrame) : Nat := (planeDescs f.format.pixelFormat).length

/-- Derive the per-plane view of a single-plane contiguous mapping for a
planar pixel format: plane pointers at the cumulative offsets, the aligned
strides and the per-plane sizes (the plane-splitting step of the missing
`QVideoFrame::map`). -/
def splitPlanes (pf : PixelFormat) (w h : Int) (md : MapData) : MapData :=
  if md.nPlanes = 1 ∧ 1 < (planeDescs pf).length then
    let base := md.data.headD 0
    ⟨(planeDescs pf).length,
     base :: (planeOffsets pf w h).map (base + ·),
     planeStrides pf w,
     planeSizes pf w h⟩
  else md

/-- Modelled from the spec: the missing `QVideoFrame::map` — fails on a
null frame or a `NotMapped` request; a frame already mapped accepts only a
further `ReadOnly` request on a `ReadOnly` mapping, incrementing the nesting
reference without touching the buffer; otherwise it delegates to the
buffer's map and, on success, records the (possibly plane-split) map data
with a nesting count of one. -/
def map (f : QVideoFrame) (mode : MapMode) : Bool × QVideoFrame :=
  match f.buffer with
  | none => (false, f)
  | some b =>
    if mode = .NotMapped then (false, f)
    else if 0 < f.mappedCount then
      if b.m_mapMode = .ReadOnly ∧ mode = .ReadOnly then
        (true, { f with mappedCount := f.mappedCount + 1 })
      else (false, f)
    else
      let r := b.map mode
      if r.fst.nPlanes = 0 then (false, f)
      else
        (true, { f with buffer := some r.snd,
                        mapData := splitPlanes f.format.pixelFormat f.format.width f.format.height r.fst,
                        mappedCount := 1 })

/-- Modelled from the spec: the missing `QVideoFrame::unmap` — a no-op on a
null or unmapped frame; with nesting count above one it only decrements;
the final unmap returns the buffer to `NotMapped` and drops the map data. -/
def unmap (f : QVideoFrame) : QVideoFrame :=
  match f.buffer with
  | none => f
  | some b =>
    match f.mappedCount with
    | 0 => f
    | 1 => { f with mappedCount := 0, mapData := MapData.empty, buffer := some b.unmap }
    | n + 2 => { f with mappedCount := n + 1 }

/-- `k` successive calls to `unmap`. -/
def unmapIter (f : QVideoFrame) : Nat → QVideoFrame
  | 0 => f
  | k + 1 => unmapIter f.unmap k

end QVideoFrame

/-!
## Explicit-sharing model of `QVideoFrame` copies

`QVideoFrame` is explicitly shared: the copy constructor and the assignment
operator copy a pointer to the shared private block (`d`-pointer), so all
copies read and write the same metadata (the `copy`/`assign` tests assert
this and annotate it "Explicitly shared.").  The heap of private blocks is
modelled as a function from addresses. -/

/-- The shared private block of a frame: the buffer reference and the
metadata living behind the `d`-pointer. -/
structure QVideoFramePrivate where
  bufferId : Option Nat
  startTime : Int
  endTime : Int
deriving DecidableEq, Repr

/-- A `QVideoFrame` value as a handle: it holds only the address of its
shared private block. -/
structure FrameRef where
  dPtr : Nat
deriving DecidableEq, Repr

/-- The heap of private blocks. -/
def FrameHeap : Type := Nat → QVideoFramePrivate

/-- Modelled from the spec: copy construction / assignment of a
`QVideoFrame` — copies the `d`-pointer, sharing the private block (and so
the buffer and the metadata) with the source.  Adjusted to the repository's
tests, which pin explicit sharing where the spec's prose says the metadata
is copied. -/
def copyFrame (f : FrameRef) : FrameRef := f

/-- `QVideoFrame::setEndTime` — writes through the `d`-pointer into the
shared private block. -/
def heapSetEndTime (heap : FrameHeap) (f : FrameRef) (t : Int) : FrameHeap :=
  fun i => if i = f.dPtr then { heap f.dPtr with endTime := t } else heap i

/-- `QVideoFrame::setStartTime` — writes through the `d`-pointer into the
shared private block. -/
def heapSetStartTime (heap : FrameHeap) (f : FrameRef) (t : Int) : FrameHeap :=
  fun i => if i = f.dPtr then { heap f.dPtr with startTime := t } else heap i

/-- `QVideoFrame::endTime` — reads through the `d`-pointer. -/
def heapEndTime (heap : FrameHeap) (f : FrameRef) : Int := (heap f.dPtr).endTime

/-- `QVideoFrame::startTime` — reads through the `d`-pointer. -/
def heapStartTime (heap : FrameHeap) (f : FrameRef) : Int := (heap f.dPtr).startTime

/-- The buffer a frame refers to, read through the `d`-pointer. -/
def heapBufferId (heap : FrameHeap) (f : FrameRef) : Option Nat := (heap f.dPtr).bufferId

/-!
## Concrete fixtures used by counterexamples and witnesses

They mirror the fixtures of the repository's tests: a 5×4 RGBA image is 80
bytes with 20 bytes per line, the `emptyData` test uses a null byte array
with a claimed stride of 600. -/

/-- A memory buffer currently mapped `ReadOnly` (the state reached by the
first `map` call of `tst_QVideoBuffers::map_doesNothing_whenBufferIsMapped`). -/
def bufMappedRO : QMemoryVideoBuffer := ⟨100, 80, 20, .ReadOnly, false⟩

/-- The zero-length-store buffer of `tst_QVideoFrame::emptyData`. -/
def bufEmpty : QMemoryVideoBuffer := ⟨100, 0, 600, .NotMapped, false⟩

/-- A fresh memory buffer whose backing store is shared with live
`QByteArray` handles elsewhere (the fixture of
`tst_QVideoBuffers::mapMemoryBufferWithWriteModes_detachsArray`). -/
def bufShared : QMemoryVideoBuffer := ⟨100, 80, 20, .NotMapped, true⟩

/-- A fresh unshared memory buffer. -/
def bufPlain : QMemoryVideoBuffer := ⟨100, 80, 20, .NotMapped, false⟩

/-- A heap with one frame private block carrying the timestamps of the
`tst_QVideoFrame::copy` data row. -/
def heapC1 : FrameHeap := fun _ => ⟨some 7, 63641740, 63641954⟩

/-- A 64×64 ARGB frame after one successful `ReadOnly` map. -/
def frameRO : QVideoFrame :=
  ((QVideoFrame.fromFormat ⟨64, 64, .Format_ARGB8888⟩).map .ReadOnly).snd

/-- The buffer state inside `frameRO`. -/
def bufRO : QMemoryVideoBuffer := ⟨0, 16384, 256, .ReadOnly, false⟩

/-!
## Helper lemmas
-/

theorem le_align16 (n : Nat) : n ≤ align16 n := by
  unfold align16; omega

theorem align16_mod16 (n : Nat) : align16 n % 16 = 0 := by
  unfold align16; omega

theorem align16_pos {n : Nat} (h : 0 < n) : 0 < align16 n := by
  unfold align16; omega

theorem bytesForSize_pos (pf : PixelFormat) (w h : Int) (hpf : planeDescs pf ≠ [])
    (hw : 0 < w) (hh : 0 < h) : 0 < bytesForSize pf w h := by
  have hw' : 0 < w.toNat := by omega
  have hh' : 0 < h.toNat := by omega
  unfold bytesForSize
  rw [if_pos ⟨hw, hh⟩]
  cases pf <;>
    simp [planeSizes, planeDescs, planeStride, planeHeight] at hpf ⊢ <;>
    first
    | (have h1 : 0 < align16 (w.toNat * 4) := align16_pos (by omega)
       have h2 := Nat.mul_pos h1 hh'
       omega)
    | (have h1 : 0 < align16 (w.toNat * 2) := align16_pos (by omega)
       have h2 := Nat.mul_pos h1 hh'
       omega)
    | (have h1 : 0 < align16 w.toNat := align16_pos hw'
       have h2 := Nat.mul_pos h1 hh'
       omega)

theorem unmap_buffer_none {f : QVideoFrame} (h : f.buffer = none) : f.unmap = f := by
  obtain ⟨buf, fmt, st, et, mc, md⟩ := f
  cases h
  rfl

theorem unmap_count_zero {f : QVideoFrame} {b : QMemoryVideoBuffer}
    (hb : f.buffer = some b) (hc : f.mappedCount = 0) : f.unmap = f := by
  obtain ⟨buf, fmt, st, et, mc, md⟩ := f
  cases hb
  cases hc
  rfl

theorem unmap_count_one {f : QVideoFrame} {b : QMemoryVideoBuffer}
    (hb : f.buffer = some b) (hc : f.mappedCount = 1) :
    f.unmap = { f with mappedCount := 0, mapData := MapData.empty, buffer := some b.unmap } := by
  obtain ⟨buf, fmt, st, et, mc, md⟩ := f
  cases hb
  cases hc
  rfl

theorem unmap_count_ge_two {f : QVideoFrame} {b : QMemoryVideoBuffer} {n : Nat}
    (hb : f.buffer = some b) (hc : f.mappedCount = n + 2) :
    f.unmap = { f with mappedCount := n + 1 } := by
  obtain ⟨buf, fmt, st, et, mc, md⟩ := f
  cases hb
  cases hc
  rfl

theorem unmapIter_spec (k : Nat) :
    ∀ (f : QVideoFrame) (b : QMemoryVideoBuffer), f.buffer = some b →
      (QVideoFrame.unmapIter f k).mappedCount = f.mappedCount - k
      ∧ (QVideoFrame.unmapIter f k).mapData
          = (if 0 < f.mappedCount ∧ f.mappedCount ≤ k then MapData.empty else f.mapData)
      ∧ (QVideoFrame.unmapIter f k).buffer
          = some (if 0 < f.mappedCount ∧ f.mappedCount ≤ k then b.unmap else b) := by
  induction k with
  | zero =>
    intro f b hb
    refine ⟨rfl, ?_, ?_⟩
    · rw [if_neg (by omega)]; rfl
    · rw [if_neg (by omega)]; exact hb
  | succ k ih =>
    rintro ⟨buf, fmt, st, et, mc, md⟩ b hb
    obtain rfl : buf = some b := hb
    rcases mc with _ | mc1
    · have hu : QVideoFrame.unmapIter ⟨some b, fmt, st, et, 0, md⟩ (k + 1)
          = QVideoFrame.unmapIter ⟨some b, fmt, st, et, 0, md⟩ k := rfl
      rw [hu]
      obtain ⟨h1, h2, h3⟩ := ih ⟨some b, fmt, st, et, 0, md⟩ b rfl
      refine ⟨?_, ?_, ?_⟩
      · rw [h1]; simp
      · rw [h2]; simp
      · rw [h3]; simp
    · rcases mc1 with _ | n
      · have hu : QVideoFrame.unmapIter ⟨some b, fmt, st, et, 1, md⟩ (k + 1)
            = QVideoFrame.unmapIter ⟨some b.unmap, fmt, st, et, 0, MapData.empty⟩ k := rfl
        rw [hu]
        obtain ⟨h1, h2, h3⟩ := ih ⟨some b.unmap, fmt, st, et, 0, MapData.empty⟩ b.unmap rfl
        have hk : (1 : Nat) ≤ k + 1 := by omega
        refine ⟨?_, ?_, ?_⟩
        · rw [h1]; simp
        · rw [h2]; simp [hk]
        · rw [h3]; simp [hk]
      · have hu : QVideoFrame.unmapIter ⟨some b, fmt, st, et, n + 2, md⟩ (k + 1)
            = QVideoFrame.unmapIter ⟨some b, fmt, st, et, n + 1, md⟩ k := rfl
        rw [hu]
        obtain ⟨h1, h2, h3⟩ := ih ⟨some b, fmt, st, et, n + 1, md⟩ b rfl
        refine ⟨?_, ?_, ?_⟩
        · rw [h1]; simp
        · rw [h2]; simp only [QVideoFrame.mappedCount, QVideoFrame.mapData]
          split
          · rw [if_pos (by omega)]
          · rw [if_neg (by omega)]
        · rw [h3]; simp only [QVideoFrame.mappedCount]
          split
          · rw [if_pos (by omega)]
          · rw [if_neg (by omega)]

theorem map_mapped_readOnly {f : QVideoFrame} {b : QMemoryVideoBuffer}
    (hb : f.buffer = some b) (hro : b.m_mapMode = .ReadOnly) (hc : 0 < f.mappedCount) :
    f.map .ReadOnly = (true, { f with mappedCount := f.mappedCount + 1 }) := by
  obtain ⟨buf, fmt, st, et, mc, md⟩ := f
  obtain rfl : buf = some b := hb
  simp only [QVideoFrame.map]
  rw [if_neg (by simp), if_pos (by simpa using hc), if_pos ⟨hro, trivial⟩]

/-!
## Claim theorems
-/

/-- Claim C1, counterexample: on the `tst_QVideoFrame::copy` data row
(`endTime = 63641954`), copying the frame and calling `setEndTime(-1)` on
the copy changes the original frame's `endTime` to `-1` as well — the
metadata is NOT frame-local, contradicting the claim as stated (and
matching the test's own "Explicitly shared." assertion). -/
theorem copy_setEndTime_affects_original :
    heapEndTime heapC1 ⟨0⟩ = 63641954
    ∧ heapEndTime (heapSetEndTime heapC1 (copyFrame ⟨0⟩) (-1)) ⟨0⟩ = -1
    ∧ ¬ heapEndTime (heapSetEndTime heapC1 (copyFrame ⟨0⟩) (-1)) ⟨0⟩ = 63641954 := by
  refine ⟨rfl, rfl, by decide⟩

/-- Claim C1, amended: copying a `QVideoFrame` shares the private block (so
the buffer reference), and the scalar metadata is shared too — mutating
`endTime` (or `startTime`) through one copy is visible through every copy;
the metadata the mutation does not touch is preserved. -/
theorem copy_shares_buffer_and_metadata :
    ∀ (heap : FrameHeap) (f : FrameRef) (t : Int),
      copyFrame f = f
      ∧ heapBufferId (heapSetEndTime heap (copyFrame f) t) f = heapBufferId heap f
      ∧ heapEndTime (heapSetEndTime heap (copyFrame f) t) f = t
      ∧ heapStartTime (heapSetEndTime heap (copyFrame f) t) f = heapStartTime heap f
      ∧ heapBufferId (heapSetStartTime heap (copyFrame f) t) f = heapBufferId heap f
      ∧ heapStartTime (heapSetStartTime heap (copyFrame f) t) f = t
      ∧ heapEndTime (heapSetStartTime heap (copyFrame f) t) f = heapEndTime heap f := by
  intro heap f t
  refine ⟨rfl, ?_, ?_, ?_, ?_, ?_, ?_⟩ <;>
    simp [copyFrame, heapBufferId, heapEndTime, heapStartTime, heapSetEndTime, heapSetStartTime]

/-- Claim C2, counterexample: a raw `QMemoryVideoBuffer` already mapped
`ReadOnly` rejects a further `ReadOnly` map — it returns the empty
(zero-plane) result and keeps its state, contradicting the claim that a
buffer-level `ReadOnly` re-map "succeeds ... and returns the same plane
pointers" (this is the behaviour pinned by
`tst_QVideoBuffers::map_doesNothing_whenBufferIsMapped`). -/
theorem buffer_remap_readOnly_fails :
    bufMappedRO.m_mapMode = .ReadOnly
    ∧ (bufMappedRO.map .ReadOnly).fst.nPlanes = 0
    ∧ (bufMappedRO.map .ReadOnly).fst = MapData.empty
    ∧ (bufMappedRO.map .ReadOnly).snd = bufMappedRO := by
  decide

/-- Claim C2, amended: the nesting `ReadOnly` re-map lives at the
`QVideoFrame` level, not in the raw buffer.  For every frame currently
mapped `ReadOnly`, a further frame-level `ReadOnly` map succeeds,
increments the nesting reference and leaves every plane pointer unchanged,
and the frame only fully unmaps — buffer back to `NotMapped`, plane
pointers invalidated — after exactly as many `unmap` calls as successful
`map` calls. -/
theorem frame_readOnly_remap_nests :
    ∀ (f : QVideoFrame) (b : QMemoryVideoBuffer),
      f.buffer = some b → b.m_mapMode = .ReadOnly → 0 < f.mappedCount →
      (f.map .ReadOnly).fst = true
      ∧ (f.map .ReadOnly).snd.mappedCount = f.mappedCount + 1
      ∧ (∀ i, (f.map .ReadOnly).snd.bits i = f.bits i)
      ∧ (∀ k, ((QVideoFrame.unmapIter f k).isMapped = true ↔ k < f.mappedCount))
      ∧ (∀ k, f.mappedCount ≤ k →
            (QVideoFrame.unmapIter f k).mapMode = .NotMapped
            ∧ ∀ i, (QVideoFrame.unmapIter f k).bits i = none) := by
  intro f b hb hro hc
  have hmap := map_mapped_readOnly hb hro hc
  refine ⟨by rw [hmap], by rw [hmap], ?_, ?_, ?_⟩
  · intro i
    rw [hmap]
    simp only [QVideoFrame.bits]
    rw [if_neg (by simp), if_neg (by omega)]
  · intro k
    obtain ⟨h1, h2, h3⟩ := unmapIter_spec k f b hb
    simp only [QVideoFrame.isMapped]
    rw [h1]
    simp only [decide_eq_true_eq]
    omega
  · intro k hk
    obtain ⟨h1, h2, h3⟩ := unmapIter_spec k f b hb
    constructor
    · simp only [QVideoFrame.mapMode]
      rw [h3, if_pos ⟨hc, hk⟩]
      rfl
    · intro i
      simp only [QVideoFrame.bits]
      rw [h1, if_pos (by omega)]

/-- Claim C2, witness: a 64×64 ARGB frame mapped once in `ReadOnly` accepts
a second `ReadOnly` map and reaches nesting count 2. -/
theorem frame_readOnly_remap_nests_witness :
    (frameRO.map .ReadOnly).fst = true
    ∧ (frameRO.map .ReadOnly).snd.mappedCount = 2 := by
  have h := frame_readOnly_remap_nests frameRO bufRO (by decide) (by decide) (by decide)
  exact ⟨h.1, by rw [h.2.1]; decide⟩

/-- Claim C3, counterexample: the zero-length-store buffer of
`tst_QVideoFrame::emptyData` is in the `NotMapped` state and `ReadOnly` is
requested — none of the claim's enumerated failure cases applies — yet the
map fails with the empty result, so the claim's "exactly these cases"
enumeration is incomplete. -/
theorem buffer_map_fails_outside_enumerated_cases :
    bufEmpty.m_mapMode = .NotMapped
    ∧ (bufEmpty.map .ReadOnly).fst.nPlanes = 0
    ∧ (bufEmpty.map .ReadOnly).fst = MapData.empty
    ∧ (bufEmpty.map .ReadOnly).snd = bufEmpty := by
  decide

/-- Claim C3, amended: a raw buffer's `map(mode)` fails — returns the empty
zero-plane result and leaves the buffer (in particular its `MapMode`)
unchanged — in exactly these cases: the requested mode is `NotMapped`, or
the buffer is currently mapped in any mode (including a `ReadOnly` re-map of
a `ReadOnly` mapping, which only the frame level accepts), or the backing
store has zero length. -/
theorem buffer_map_failure_characterization :
    ∀ (b : QMemoryVideoBuffer) (mode : MapMode),
      ((b.map mode).fst.nPlanes = 0
        ↔ (mode = .NotMapped ∨ b.m_mapMode ≠ .NotMapped ∨ b.dataLen = 0))
      ∧ ((b.map mode).fst.nPlanes = 0 → (b.map mode).snd = b) := by
  intro b mode
  unfold QMemoryVideoBuffer.map
  split
  · rename_i hcond
    obtain ⟨h1, h2, h3⟩ := hcond
    constructor
    · simp [h1, h2, h3]
    · simp
  · rename_i hcond
    constructor
    · simp only [MapData.empty]
      constructor
      · intro _
        by_contra hall
        push_neg at hall
        exact hcond ⟨hall.2.1, hall.2.2, hall.1⟩
      · intro _
        trivial
    · intro _
      rfl

/-- Claim C3, witness: on a fresh 80-byte buffer a `NotMapped`-mode request
fails and changes nothing, while on the mapped fixture any request fails. -/
theorem buffer_map_failure_characterization_witness :
    (bufPlain.map .NotMapped).fst.nPlanes = 0
    ∧ (bufPlain.map .NotMapped).snd = bufPlain
    ∧ (bufMappedRO.map .WriteOnly).fst.nPlanes = 0 := by
  refine ⟨?_, ?_, ?_⟩
  · exact (buffer_map_failure_characterization bufPlain .NotMapped).1.mpr (Or.inl rfl)
  · exact (buffer_map_failure_characterization bufPlain .NotMapped).2
      ((buffer_map_failure_characterization bufPlain .NotMapped).1.mpr (Or.inl rfl))
  · exact (buffer_map_failure_characterization bufMappedRO .WriteOnly).1.mpr
      (Or.inr (Or.inl (by decide)))

/-- Claim C4: constructing a frame from a format alone with positive
dimensions and a supported pixel format yields a valid frame reporting the
requested size and format with both timestamps `-1`; with a non-positive
dimension no buffer is allocated and the frame is invalid, yet its size and
pixel-format accessors still report the requested values. -/
theorem fromFormat_validity :
    (∀ (w h : Int) (pf : PixelFormat), 0 < w → 0 < h → planeDescs pf ≠ [] →
        (QVideoFrame.fromFormat ⟨w, h, pf⟩).isValid = true
        ∧ (QVideoFrame.fromFormat ⟨w, h, pf⟩).width = w
        ∧ (QVideoFrame.fromFormat ⟨w, h, pf⟩).height = h
        ∧ (QVideoFrame.fromFormat ⟨w, h, pf⟩).pixelFormat = pf
        ∧ (QVideoFrame.fromFormat ⟨w, h, pf⟩).startTime = -1
        ∧ (QVideoFrame.fromFormat ⟨w, h, pf⟩).endTime = -1)
    ∧ (∀ (w h : Int) (pf : PixelFormat), w ≤ 0 ∨ h ≤ 0 →
        (QVideoFrame.fromFormat ⟨w, h, pf⟩).buffer = none
        ∧ (QVideoFrame.fromFormat ⟨w, h, pf⟩).isValid = false
        ∧ (QVideoFrame.fromFormat ⟨w, h, pf⟩).width = w
        ∧ (QVideoFrame.fromFormat ⟨w, h, pf⟩).height = h
        ∧ (QVideoFrame.fromFormat ⟨w, h, pf⟩).pixelFormat = pf
        ∧ (QVideoFrame.fromFormat ⟨w, h, pf⟩).startTime = -1
        ∧ (QVideoFrame.fromFormat ⟨w, h, pf⟩).endTime = -1) := by
  constructor
  · intro w h pf hw hh hpf
    have hpos := bytesForSize_pos pf w h hpf hw hh
    unfold QVideoFrame.fromFormat
    rw [if_pos hpos]
    refine ⟨?_, rfl, rfl, rfl, rfl, rfl⟩
    simp [QVideoFrame.isValid, hw, hh]
  · intro w h pf hwh
    have hz : bytesForSize pf w h = 0 := by
      unfold bytesForSize
      rw [if_neg (by omega)]
    unfold QVideoFrame.fromFormat
    simp only [hz]
    rw [if_neg (by omega)]
    exact ⟨rfl, rfl, rfl, rfl, rfl, rfl, rfl⟩

/-- Claim C4, witness: a 64×64 ARGB8888 frame is valid with unset
timestamps, and a 0×64 frame gets no buffer yet reports its size. -/
theorem fromFormat_validity_witness :
    ((QVideoFrame.fromFormat ⟨64, 64, .Format_ARGB8888⟩).isValid = true
     ∧ (QVideoFrame.fromFormat ⟨64, 64, .Format_ARGB8888⟩).startTime = -1)
    ∧ ((QVideoFrame.fromFormat ⟨0, 64, .Format_ARGB8888⟩).buffer = none
       ∧ (QVideoFrame.fromFormat ⟨0, 64, .Format_ARGB8888⟩).width = 0) := by
  have h1 := fromFormat_validity.1 64 64 .Format_ARGB8888 (by decide) (by decide) (by decide)
  have h2 := fromFormat_validity.2 0 64 .Format_ARGB8888 (Or.inl (by decide))
  exact ⟨⟨h1.1, h1.2.2.2.2.1⟩, ⟨h2.1, h2.2.2.1⟩⟩

/-- Claim C5: mapping an in-memory buffer (whose store is shared with the
byte-array handles alive outside, as after calling `underlyingByteArray`)
from the `NotMapped` state in `WriteOnly` or `ReadWrite` mode detaches the
store — the returned plane-0 pointer differs from the pointer
`underlyingByteArray(0)` exposed before mapping — while a `ReadOnly` map
returns exactly that pointer. -/
theorem memoryBuffer_write_map_detaches :
    ∀ (b : QMemoryVideoBuffer),
      b.m_mapMode = .NotMapped → b.dataLen ≠ 0 → b.externallyShared = true →
      b.underlyingByteArray 0 = some (b.dataPtr, b.dataLen)
      ∧ (b.map .WriteOnly).fst.nPlanes = 1
      ∧ (b.map .WriteOnly).fst.data.head? = some (b.dataPtr + 1)
      ∧ (b.map .WriteOnly).fst.data.head? ≠ some b.dataPtr
      ∧ (b.map .ReadWrite).fst.nPlanes = 1
      ∧ (b.map .ReadWrite).fst.data.head? = some (b.dataPtr + 1)
      ∧ (b.map .ReadWrite).fst.data.head? ≠ some b.dataPtr
      ∧ (b.map .ReadOnly).fst.nPlanes = 1
      ∧ (b.map .ReadOnly).fst.data.head? = some b.dataPtr := by
  intro b h1 h2 h3
  have hw : (b.map .WriteOnly)
      = (⟨1, [b.dataPtr + 1], [b.bytesPerLine], [b.dataLen]⟩,
         { b with m_mapMode := .WriteOnly, dataPtr := b.dataPtr + 1,
                  externallyShared := false }) := by
    unfold QMemoryVideoBuffer.map
    rw [if_pos ⟨h1, h2, by decide⟩]
    simp [MapMode.includesWrite, h3]
  have hrw : (b.map .ReadWrite)
      = (⟨1, [b.dataPtr + 1], [b.bytesPerLine], [b.dataLen]⟩,
         { b with m_mapMode := .ReadWrite, dataPtr := b.dataPtr + 1,
                  externallyShared := false }) := by
    unfold QMemoryVideoBuffer.map
    rw [if_pos ⟨h1, h2, by decide⟩]
    simp [MapMode.includesWrite, h3]
  have hro : (b.map .ReadOnly)
      = (⟨1, [b.dataPtr], [b.bytesPerLine], [b.dataLen]⟩,
         { b with m_mapMode := .ReadOnly }) := by
    unfold QMemoryVideoBuffer.map
    rw [if_pos ⟨h1, h2, by decide⟩]
    simp [MapMode.includesWrite]
  refine ⟨by unfold QMemoryVideoBuffer.underlyingByteArray; rw [if_pos rfl],
          by rw [hw], by rw [hw]; rfl, by rw [hw]; simp, by rw [hrw], by rw [hrw]; rfl,
          by rw [hrw]; simp, by rw [hro], by rw [hro]; rfl⟩

/-- Claim C5, witness: the shared 80-byte fixture detaches (plane-0 pointer
moves from 100 to 101) under a `WriteOnly` map and keeps pointer 100 under a
`ReadOnly` map. -/
theorem memoryBuffer_write_map_detaches_witness :
    (bufShared.map .WriteOnly).fst.data.head? = some 101
    ∧ (bufShared.map .ReadOnly).fst.data.head? = some 100 := by
  have h := memoryBuffer_write_map_detaches bufShared (by decide) (by decide) (by decide)
  exact ⟨h.2.2.1, h.2.2.2.2.2.2.2.2⟩

/-- Claim C6: a buffer backed by a zero-length store fails to map in every
mode — the raw buffer returns the empty result unchanged, and a frame
wrapping such a buffer reports mapping failure. -/
theorem zeroLength_map_fails :
    ∀ (b : QMemoryVideoBuffer) (mode : MapMode) (fmt : VideoFrameFormat), b.dataLen = 0 →
      (b.map mode).fst = MapData.empty
      ∧ (b.map mode).snd = b
      ∧ ((QVideoFrame.fromBuffer (some b) fmt).map mode).fst = false := by
  intro b mode fmt hlen
  have hmap : b.map mode = (MapData.empty, b) := by
    unfold QMemoryVideoBuffer.map
    rw [if_neg (by simp [hlen])]
  refine ⟨by rw [hmap], by rw [hmap], ?_⟩
  by_cases hmode : mode = .NotMapped
  · subst hmode
    rfl
  · show (QVideoFrame.map ⟨some b, fmt, -1, -1, 0, MapData.empty⟩ mode).fst = false
    simp only [QVideoFrame.map]
    rw [if_neg hmode]
    rw [if_neg (by simp)]
    rw [hmap]
    rfl

/-- Claim C6, witness: the `emptyData` fixture (null byte array, claimed
stride 600, 800×600 ARGB format) fails to map in all three modes at both the
buffer and the frame level. -/
theorem zeroLength_map_fails_witness :
    (bufEmpty.map .WriteOnly).fst = MapData.empty
    ∧ (bufEmpty.map .ReadWrite).fst = MapData.empty
    ∧ ((QVideoFrame.fromBuffer (some bufEmpty) ⟨800, 600, .Format_ARGB8888⟩).map
        .ReadOnly).fst = false := by
  refine ⟨?_, ?_, ?_⟩
  · exact (zeroLength_map_fails bufEmpty .WriteOnly ⟨800, 600, .Format_ARGB8888⟩ rfl).1
  · exact (zeroLength_map_fails bufEmpty .ReadWrite ⟨800, 600, .Format_ARGB8888⟩ rfl).1
  · exact (zeroLength_map_fails bufEmpty .ReadOnly ⟨800, 600, .Format_ARGB8888⟩ rfl).2.2

/-- Claim C7: for every in-memory buffer and every integer plane index,
`underlyingByteArray(i)` is the null result exactly when `i` is negative or
at least the plane count, and otherwise exposes the raw backing store
(address and length) — with no requirement that the buffer be mapped, since
the result never depends on the map state. -/
theorem underlyingByteArray_range :
    ∀ (b : QMemoryVideoBuffer) (i : Int),
      (b.underlyingByteArray i = none ↔ (i < 0 ∨ (b.planeCount : Int) ≤ i))
      ∧ (0 ≤ i → i < (b.planeCount : Int) →
          b.underlyingByteArray i = some (b.dataPtr, b.dataLen))
      ∧ (∀ (m : MapMode),
          QMemoryVideoBuffer.underlyingByteArray { b with m_mapMode := m } i
            = b.underlyingByteArray i) := by
  intro b i
  unfold QMemoryVideoBuffer.underlyingByteArray QMemoryVideoBuffer.planeCount
  by_cases hi : i = 0
  · subst hi
    refine ⟨?_, ?_, ?_⟩
    · simp
    · intro _ _
      rw [if_pos rfl]
    · intro m
      rw [if_pos rfl]
  · rw [if_neg hi]
    refine ⟨?_, ?_, ?_⟩
    · simp
      omega
    · intro hge hlt
      omega
    · intro m
      rw [if_neg hi]

/-- Claim C7, witness: on the 80-byte fixture `underlyingByteArray` is null
at plane `-1` and at plane `1`, and exposes the store `(100, 80)` at plane
`0`. -/
theorem underlyingByteArray_range_witness :
    bufPlain.underlyingByteArray (-1) = none
    ∧ bufPlain.underlyingByteArray 1 = none
    ∧ bufPlain.underlyingByteArray 0 = some (100, 80) := by
  refine ⟨?_, ?_, ?_⟩
  · exact (underlyingByteArray_range bufPlain (-1)).1.mpr (Or.inl (by decide))
  · exact (underlyingByteArray_range bufPlain 1).1.mpr (Or.inr (by decide))
  · exact (underlyingByteArray_range bufPlain 0).2.1 (by decide) (by decide)

/-- Claim C8: invalid frames are inert.  The default-constructed frame
fails to map in every mode without changing state, unmaps as a no-op,
reports `NotMapped`, is not mapped/readable/writable and returns sentinel
accessor values; a frame built over a null buffer behaves the same while its
size and format accessors still report the supplied format. -/
theorem invalid_frame_inert :
    (QVideoFrame.defaultFrame.isValid = false
     ∧ QVideoFrame.defaultFrame.pixelFormat = .Format_Invalid
     ∧ QVideoFrame.defaultFrame.width = -1
     ∧ QVideoFrame.defaultFrame.height = -1
     ∧ QVideoFrame.defaultFrame.startTime = -1
     ∧ QVideoFrame.defaultFrame.endTime = -1
     ∧ QVideoFrame.defaultFrame.mapMode = .NotMapped
     ∧ QVideoFrame.defaultFrame.isMapped = false
     ∧ QVideoFrame.defaultFrame.isReadable = false
     ∧ QVideoFrame.defaultFrame.isWritable = false
     ∧ (∀ (mode : MapMode), (QVideoFrame.defaultFrame.map mode).fst = false
          ∧ (QVideoFrame.defaultFrame.map mode).snd = QVideoFrame.defaultFrame)
     ∧ QVideoFrame.defaultFrame.unmap = QVideoFrame.defaultFrame
     ∧ (∀ (i : Nat), QVideoFrame.defaultFrame.bits i = none))
    ∧ (∀ (fmt : VideoFrameFormat),
        (QVideoFrame.fromBuffer none fmt).isValid = false
        ∧ (QVideoFrame.fromBuffer none fmt).width = fmt.width
        ∧ (QVideoFrame.fromBuffer none fmt).height = fmt.height
        ∧ (QVideoFrame.fromBuffer none fmt).pixelFormat = fmt.pixelFormat
        ∧ (QVideoFrame.fromBuffer none fmt).startTime = -1
        ∧ (QVideoFrame.fromBuffer none fmt).endTime = -1
        ∧ (QVideoFrame.fromBuffer none fmt).mapMode = .NotMapped
        ∧ (QVideoFrame.fromBuffer none fmt).isMapped = false
        ∧ (QVideoFrame.fromBuffer none fmt).isReadable = false
        ∧ (QVideoFrame.fromBuffer none fmt).isWritable = false
        ∧ (∀ (mode : MapMode), ((QVideoFrame.fromBuffer none fmt).map mode).fst = false
             ∧ ((QVideoFrame.fromBuffer none fmt).map mode).snd
                 = QVideoFrame.fromBuffer none fmt)
        ∧ (QVideoFrame.fromBuffer none fmt).unmap = QVideoFrame.fromBuffer none fmt
        ∧ (∀ (i : Nat), (QVideoFrame.fromBuffer none fmt).bits i = none)) := by
  refine ⟨⟨rfl, rfl, rfl, rfl, rfl, rfl, rfl, rfl, rfl, rfl,
           fun mode => ⟨rfl, rfl⟩, rfl, fun i => rfl⟩,
          fun fmt => ⟨rfl, rfl, rfl, rfl, rfl, rfl, rfl, rfl, rfl, rfl,
           fun mode => ⟨rfl, rfl⟩, rfl, fun i => rfl⟩⟩

/-- Claim C9: the image-format/pixel-format tables are mutually inverse on
every image format with a direct pixel-format equivalent, with exactly one
asymmetric exception — `QImage::Format_RGBA8888_Premultiplied` maps forward
to the pixel format `Format_RGBX8888` (the documented workaround), whose
reverse mapping yields the different image format
`QImage::Format_RGBX8888`. -/
theorem formatConversion_roundTrip :
    ∀ (f : QImageFormat), pixelFormatFromImageFormat f ≠ .Format_Invalid →
      (imageFormatFromPixelFormat (pixelFormatFromImageFormat f) = f
        ↔ f ≠ .Format_RGBA8888_Premultiplied)
      ∧ pixelFormatFromImageFormat .Format_RGBA8888_Premultiplied = .Format_RGBX8888
      ∧ imageFormatFromPixelFormat
          (pixelFormatFromImageFormat .Format_RGBA8888_Premultiplied)
          = .Format_RGBX8888
      ∧ QImageFormat.Format_RGBX8888 ≠ QImageFormat.Format_RGBA8888_Premultiplied := by
  intro f h
  cases f <;> first
    | exact absurd rfl h
    | decide

/-- Claim C9, witness: `QImage::Format_RGB32` round-trips through
`Format_BGRX8888` back to itself, while the workaround format does not
round-trip. -/
theorem formatConversion_roundTrip_witness :
    imageFormatFromPixelFormat (pixelFormatFromImageFormat .Format_RGB32)
      = QImageFormat.Format_RGB32
    ∧ imageFormatFromPixelFormat
        (pixelFormatFromImageFormat .Format_RGBA8888_Premultiplied)
        = QImageFormat.Format_RGBX8888 := by
  refine ⟨?_, ?_⟩
  · exact (formatConversion_roundTrip .Format_RGB32 (by decide)).1.mpr (by decide)
  · exact (formatConversion_roundTrip .Format_RGB32 (by decide)).2.2.1

/-- Claim C10: planes of a frame allocated from a format alone are laid out
with upward-aligned strides — every plane stride is the minimal row byte
width rounded up to a multiple of 16 — and each subsequent plane starts at
an offset from plane 0 equal to the sum of the preceding planes' stride
times plane height; on the `mapPlanes` test table at 60×64 this gives
exactly the strides and offsets the tests expect (luma stride 64, chroma
strides 32, offsets 4096 and 5120 for YUV420P, and so on), and the mapped
frame exposes those plane pointers and strides. -/
theorem mapPlanes_layout :
    (∀ (w : Int) (p : PlaneDesc),
        w.toNat * p.byteFactor / p.widthDiv ≤ planeStride w p
        ∧ planeStride w p % 16 = 0)
    ∧ (∀ (pf : PixelFormat) (w h : Int) (i : Nat),
        (planeOffsets pf w h).get? i =
          if i + 1 < (planeDescs pf).length
          then some (((planeSizes pf w h).take (i + 1)).sum)
          else none)
    ∧ planeStrides .Format_YUV420P 60 = [64, 32, 32]
    ∧ planeOffsets .Format_YUV420P 60 64 = [4096, 5120]
    ∧ planeStrides .Format_YUV422P 60 = [64, 32, 32]
    ∧ planeOffsets .Format_YUV422P 60 64 = [4096, 6144]
    ∧ planeStrides .Format_YV12 60 = [64, 32, 32]
    ∧ planeOffsets .Format_YV12 60 64 = [4096, 5120]
    ∧ planeStrides .Format_NV12 60 = [64, 64]
    ∧ planeOffsets .Format_NV12 60 64 = [4096]
    ∧ planeStrides .Format_NV21 60 = [64, 64]
    ∧ planeOffsets .Format_NV21 60 64 = [4096]
    ∧ planeStrides .Format_IMC2 60 = [64, 64]
    ∧ planeOffsets .Format_IMC2 60 64 = [4096]
    ∧ planeStrides .Format_IMC4 60 = [64, 64]
    ∧ planeOffsets .Format_IMC4 60 64 = [4096]
    ∧ planeStrides .Format_IMC1 60 = [64, 64, 64]
    ∧ planeOffsets .Format_IMC1 60 64 = [4096, 6144]
    ∧ planeStrides .Format_IMC3 60 = [64, 64, 64]
    ∧ planeOffsets .Format_IMC3 60 64 = [4096, 6144]
    ∧ planeStrides .Format_ARGB8888 60 = [240]
    ∧ planeOffsets .Format_ARGB8888 60 64 = []
    ∧ ((QVideoFrame.fromFormat ⟨60, 64, .Format_YUV420P⟩).map .ReadOnly).fst = true
    ∧ ((QVideoFrame.fromFormat ⟨60, 64, .Format_YUV420P⟩).map .ReadOnly).snd.planeCount = 3
    ∧ ((QVideoFrame.fromFormat ⟨60, 64, .Format_YUV420P⟩).map .ReadOnly).snd.bits 0 = some 0
    ∧ ((QVideoFrame.fromFormat ⟨60, 64, .Format_YUV420P⟩).map .ReadOnly).snd.bits 1
        = some 4096
    ∧ ((QVideoFrame.fromFormat ⟨60, 64, .Format_YUV420P⟩).map .ReadOnly).snd.bits 2
        = some 5120
    ∧ ((QVideoFrame.fromFormat ⟨60, 64, .Format_YUV420P⟩).map .ReadOnly).snd.bytesPerLine 0
        = 64
    ∧ ((QVideoFrame.fromFormat ⟨60, 64, .Format_YUV420P⟩).map .ReadOnly).snd.bytesPerLine 1
        = 32
    ∧ ((QVideoFrame.fromFormat ⟨60, 64, .Format_YUV420P⟩).map .ReadOnly).snd.bytesPerLine 2
        = 32 := by
  refine ⟨?_, ?_, ?_⟩
  · intro w p
    unfold planeStride
    exact ⟨le_align16 _, align16_mod16 _⟩
  · intro pf w h i
    unfold planeOffsets
    have hlen : (planeSizes pf w h).length = (planeDescs pf).length := by
      simp [planeSizes]
    rw [List.get?_eq_getElem?]
    rw [List.getElem?_map, List.getElem?_drop]
    by_cases hi : 1 + i < (planeSizes pf w h).length
    · rw [List.getElem?_range (by omega), if_pos (by omega)]
      simp [Nat.add_comm]
    · rw [List.getElem?_eq_none (by simpa using by omega), if_neg (by omega)]
      rfl
  · decide

end QtMultimediaModel
